import Mathlib

/-!
Shallow embedding of the 6502 CPU interpreter (src/cpu.rs, src/cpu/opcodes.rs).

The CPU state is modelled as a structure of natural numbers; 8-bit and 16-bit
machine values are natural numbers reduced modulo 256 / 65536 exactly where the
source performs a wrapping operation or a narrowing cast.  Rust operations that
can panic (array indexing, checked `+`/`-` arithmetic in debug builds, explicit
`panic!` calls) are modelled in the `Except EmuError` monad; a `.error` value is
the model of an aborted run.  The source stores memory as `[u8; 0xFFFF]` — an
array of 65535 (not 65536) bytes — and the opcode table as `[Opcode; 0xFF]` —
255 entries; both bounds are reproduced faithfully below.
-/

namespace Nes

/-- The reasons the interpreter can abort, mirroring the Rust panics:
out-of-bounds array indexing, checked integer overflow/underflow, the
`"Stack overflow"` / `"Read from empty stack"` panics in `push`/`pop`,
the `"Wrong addressing mode!"` panic in `get_operand_address`, and the
`"Unknown opcode: {:#x}"` panic in `interpret` (which records the byte
named by the diagnostic). -/
inductive EmuError where
  | indexOutOfBounds : EmuError
  | arithmeticOverflow : EmuError
  | stackOverflow : EmuError
  | stackUnderflow : EmuError
  | wrongAddressingMode : EmuError
  | unknownOpcode (code : Nat) : EmuError
deriving DecidableEq, Repr

/-- Addressing modes, from `enum AddressingMode` in src/cpu.rs. -/
inductive AddressingMode where
  | Immediate | ZeroPage | ZeroPage_X | Absolute | Absolute_X | Absolute_Y
  | Indirect_X | Indirect_Y | None
deriving DecidableEq, Repr

/-- Opcode descriptor, from `struct Opcode` in src/cpu/opcodes.rs. -/
structure Opcode where
  code : Nat
  mnemonic : String
  length : Nat
  cycles : Nat
  mode : AddressingMode
deriving Repr

/-- `Opcode::basic()`: the placeholder filling unpopulated table slots. -/
def Opcode.basic : Opcode :=
  { code := 0x02, mnemonic := "NUL", length := 0, cycles := 0, mode := AddressingMode.Immediate }

/-- CPU state, from `struct CPU` in src/cpu.rs.  The `memory` field models the
Rust array `memory: [u8; 0xFFFF]` as a function; accesses are bounds-checked
against `MEM_SIZE = 0xFFFF` (the source array's length) in `mem_read`/`mem_write`.
The opcode table is a global constant (`opcode_table` below) rather than a
state field, since the source builds it once in `CPU::new` and never mutates it. -/
structure CPU where
  accumulator : Nat
  status : Nat
  program_counter : Nat
  stack_pointer : Nat
  register_x : Nat
  register_y : Nat
  memory : Nat → Nat

/-- Length of the Rust backing array `[u8; 0xFFFF]`: 65535 bytes. -/
def MEM_SIZE : Nat := 0xFFFF

/-- Status flag masks from `impl Status` in src/cpu.rs. -/
def CARRY : Nat := 0x01

def ZERO : Nat := 0x02

def INTERRUPT_DISABLE : Nat := 0x04

def DECIMAL_MODE : Nat := 0x08

def BREAK : Nat := 0x10

def BREAK2 : Nat := 0x20

def OVERFLOW : Nat := 0x40

def NEGATIV : Nat := 0x80

/-- `Status::set`: `self.status |= flag`. -/
def status_set (s : CPU) (flag : Nat) : CPU :=
  { s with status := s.status ||| flag }

/-- `Status::reset`: `self.status &= !flag` (u8 complement of a mask below 256 is `255 - flag`). -/
def status_reset (s : CPU) (flag : Nat) : CPU :=
  { s with status := s.status &&& (255 - flag) }

/-- Checked 16-bit addition: Rust `+` on `u16`, which panics on overflow. -/
def u16_add (a b : Nat) : Except EmuError Nat :=
  if a + b < 0x10000 then Except.ok (a + b) else Except.error EmuError.arithmeticOverflow

/-- Checked 16-bit subtraction: Rust `-` on `u16`, which panics on underflow. -/
def u16_sub (a b : Nat) : Except EmuError Nat :=
  if b ≤ a then Except.ok (a - b) else Except.error EmuError.arithmeticOverflow

/-- Checked 8-bit addition: Rust `+` on `u8`, which panics on overflow. -/
def u8_add (a b : Nat) : Except EmuError Nat :=
  if a + b < 0x100 then Except.ok (a + b) else Except.error EmuError.arithmeticOverflow

/-- `CPU::mem_read`: `self.memory[address as usize]`, an indexing operation
that panics when `address` is not below the array length `0xFFFF`. -/
def mem_read (s : CPU) (address : Nat) : Except EmuError Nat :=
  if address < MEM_SIZE then Except.ok (s.memory address)
  else Except.error EmuError.indexOutOfBounds

/-- `CPU::mem_write`: `self.memory[address as usize] = data`. -/
def mem_write (s : CPU) (address data : Nat) : Except EmuError CPU :=
  if address < MEM_SIZE then
    Except.ok { s with memory := fun x => if x = address then data else s.memory x }
  else Except.error EmuError.indexOutOfBounds

/-- `CPU::mem_read_u16`: `lo = mem_read(position); hi = mem_read(position + 1);
(hi << 8) | lo`, with the `position + 1` a checked u16 addition. -/
def mem_read_u16 (s : CPU) (position : Nat) : Except EmuError Nat :=
  match mem_read s position with
  | Except.error e => Except.error e
  | Except.ok lo =>
    match u16_add position 1 with
    | Except.error e => Except.error e
    | Except.ok p1 =>
      match mem_read s p1 with
      | Except.error e => Except.error e
      | Except.ok hi => Except.ok ((hi <<< 8) ||| lo)

/-- `CPU::mem_write_u16`: low byte at `address`, high byte at `address + 1`. -/
def mem_write_u16 (s : CPU) (address data : Nat) : Except EmuError CPU :=
  match mem_write s address (data &&& 0xFF) with
  | Except.error e => Except.error e
  | Except.ok s1 =>
    match u16_add address 1 with
    | Except.error e => Except.error e
    | Except.ok a1 => mem_write s1 a1 ((data >>> 8) % 256)

/-- `CPU::new()`: zeroed registers and memory, `stack_pointer = 0x01FD`. -/
def CPU.new : CPU :=
  { accumulator := 0, status := 0, program_counter := 0, stack_pointer := 0x01FD
  , register_x := 0, register_y := 0, memory := fun _ => 0 }

/-- `CPU::load`: `self.memory[0x0600..(0x0600 + program.len())].copy_from_slice(&program)`
followed by `mem_write_u16(0xFFFC, 0x0600)`.  The slice operation panics when
`0x0600 + program.len()` exceeds the array length `0xFFFF`. -/
def load (s : CPU) (program : List Nat) : Except EmuError CPU :=
  let copied : Nat → Nat := fun a =>
    if 0x0600 ≤ a ∧ a < 0x0600 + program.length then program.getD (a - 0x0600) 0
    else s.memory a
  match (if 0x0600 + program.length ≤ MEM_SIZE then
      Except.ok { s with memory := copied }
    else (Except.error EmuError.indexOutOfBounds : Except EmuError CPU)) with
  | Except.error e => Except.error e
  | Except.ok s1 => mem_write_u16 s1 0xFFFC 0x0600

/-- `CPU::increment_program_counter`: `self.program_counter += step as u16 - 1`
(checked u16 subtraction, then checked u16 addition). -/
def increment_program_counter (s : CPU) (step : Nat) : Except EmuError CPU :=
  match u16_sub step 1 with
  | Except.error e => Except.error e
  | Except.ok d =>
    match u16_add s.program_counter d with
    | Except.error e => Except.error e
    | Except.ok pc => Except.ok { s with program_counter := pc }

/-- `CPU::push`: write at `stack_pointer`, decrement it (checked), then panic
with `"Stack overflow"` when the new pointer is below `0x0100`. -/
def push (s : CPU) (data : Nat) : Except EmuError CPU :=
  match mem_write s s.stack_pointer data with
  | Except.error e => Except.error e
  | Except.ok s1 =>
    match u16_sub s1.stack_pointer 1 with
    | Except.error e => Except.error e
    | Except.ok sp =>
      if sp < 0x0100 then Except.error EmuError.stackOverflow
      else Except.ok { s1 with stack_pointer := sp }

/-- `CPU::pop`: increment `stack_pointer` (checked), panic with
`"Read from empty stack"` when it exceeds `0x01FF`, then read at the new pointer. -/
def pop (s : CPU) : Except EmuError (CPU × Nat) :=
  match u16_add s.stack_pointer 1 with
  | Except.error e => Except.error e
  | Except.ok sp =>
    if 0x01FF < sp then Except.error EmuError.stackUnderflow
    else
      match mem_read s sp with
      | Except.error e => Except.error e
      | Except.ok data => Except.ok ({ s with stack_pointer := sp }, data)

/-- `CPU::get_operand_address`, translated case by case from src/cpu.rs. -/
def get_operand_address (s : CPU) (mode : AddressingMode) : Except EmuError Nat :=
  match mode with
  | AddressingMode.Immediate => Except.ok s.program_counter
  | AddressingMode.ZeroPage => mem_read s s.program_counter
  | AddressingMode.ZeroPage_X =>
    match mem_read s s.program_counter with
    | Except.error e => Except.error e
    | Except.ok position => Except.ok ((position + s.register_x) % 256)
  | AddressingMode.Absolute => mem_read_u16 s s.program_counter
  | AddressingMode.Absolute_X =>
    match mem_read_u16 s s.program_counter with
    | Except.error e => Except.error e
    | Except.ok base => Except.ok ((base + s.register_x) % 0x10000)
  | AddressingMode.Absolute_Y =>
    match mem_read_u16 s s.program_counter with
    | Except.error e => Except.error e
    | Except.ok base => Except.ok ((base + s.register_y) % 0x10000)
  | AddressingMode.Indirect_X =>
    match mem_read s s.program_counter with
    | Except.error e => Except.error e
    | Except.ok base =>
      let ptr := (base + s.register_x) % 256
      match mem_read s ptr with
      | Except.error e => Except.error e
      | Except.ok lo =>
        match mem_read s ((ptr + 1) % 256) with
        | Except.error e => Except.error e
        | Except.ok hi => Except.ok ((hi <<< 8) ||| lo)
  | AddressingMode.Indirect_Y =>
    match mem_read s s.program_counter with
    | Except.error e => Except.error e
    | Except.ok base =>
      match mem_read s base with
      | Except.error e => Except.error e
      | Except.ok lo =>
        match mem_read s ((base + 1) % 256) with
        | Except.error e => Except.error e
        | Except.ok hi => Except.ok ((((hi <<< 8) ||| lo) + s.register_y) % 0x10000)
  | AddressingMode.None => Except.error EmuError.wrongAddressingMode

/-- `CPU::update_zero_and_negative_flags`. -/
def update_zero_and_negative_flags (s : CPU) (result : Nat) : CPU :=
  let s1 := if result = 0 then status_set s ZERO else status_reset s ZERO
  if result &&& 0x80 ≠ 0 then status_set s1 NEGATIV else status_reset s1 NEGATIV

/-- `CPU::add_to_accumulator`: 16-bit sum of A, the operand, and the carry bit;
carry from bit 8, signed overflow from `(data ^ result) & (result ^ A) & 0x80`. -/
def add_to_accumulator (s : CPU) (data : Nat) : CPU :=
  let carry := if s.status &&& 0x01 = 1 then 1 else 0
  let sum := s.accumulator + data + carry
  let s1 := if 0xff < sum then status_set s CARRY else status_reset s CARRY
  let result := sum % 256
  let s2 :=
    if ((data ^^^ result) &&& (result ^^^ s.accumulator)) &&& 0x80 ≠ 0 then
      status_set s1 OVERFLOW
    else status_reset s1 OVERFLOW
  { s2 with accumulator := result }

/-- `CPU::compare`: carry iff `register >= value`, then N/Z from
`register.wrapping_sub(value)`, then advance PC. -/
def compare (s : CPU) (opcode : Opcode) (register : Nat) : Except EmuError CPU :=
  match get_operand_address s opcode.mode with
  | Except.error e => Except.error e
  | Except.ok address =>
    match mem_read s address with
    | Except.error e => Except.error e
    | Except.ok value =>
      let s1 := if value ≤ register then status_set s CARRY else status_reset s CARRY
      let s2 := update_zero_and_negative_flags s1 ((register + 256 - value) % 256)
      increment_program_counter s2 opcode.length

/-- `CPU::adc`. -/
def adc (s : CPU) (opcode : Opcode) : Except EmuError CPU :=
  match get_operand_address s opcode.mode with
  | Except.error e => Except.error e
  | Except.ok address =>
    match mem_read s address with
    | Except.error e => Except.error e
    | Except.ok value =>
      let s1 := add_to_accumulator s value
      let s2 := update_zero_and_negative_flags s1 s1.accumulator
      increment_program_counter s2 opcode.length

/-- `CPU::and`: `self.accumulator &= value`. -/
def and (s : CPU) (opcode : Opcode) : Except EmuError CPU :=
  match get_operand_address s opcode.mode with
  | Except.error e => Except.error e
  | Except.ok address =>
    match mem_read s address with
    | Except.error e => Except.error e
    | Except.ok value =>
      let s1 := { s with accumulator := s.accumulator &&& value }
      let s2 := update_zero_and_negative_flags s1 s1.accumulator
      increment_program_counter s2 opcode.length

/-- `CPU::asl`: operand is A when the mode is `None`, else the byte at the
effective address.  The shifted result is stored in the ACCUMULATOR in every
mode (the source never writes it back to memory), and the carry flag is set
when bit 7 of the operand was 1 but is left untouched otherwise (no `else`
branch in the source). -/
def asl (s : CPU) (opcode : Opcode) : Except EmuError CPU :=
  match (if opcode.mode = AddressingMode.None then Except.ok s.accumulator
    else
      match get_operand_address s opcode.mode with
      | Except.error e => Except.error e
      | Except.ok address => mem_read s address) with
  | Except.error e => Except.error e
  | Except.ok value =>
    let result := value <<< 1
    let s1 := if 0xff < result then status_set s CARRY else s
    let s2 := { s1 with accumulator := result % 256 }
    let s3 := update_zero_and_negative_flags s2 s2.accumulator
    increment_program_counter s3 opcode.length

/-- `CPU::dec`: decrement (wrapping) the byte at the effective address. -/
def dec (s : CPU) (opcode : Opcode) : Except EmuError CPU :=
  match get_operand_address s opcode.mode with
  | Except.error e => Except.error e
  | Except.ok address =>
    match mem_read s address with
    | Except.error e => Except.error e
    | Except.ok value =>
      let result := (value + 255) % 256
      match mem_write s address result with
      | Except.error e => Except.error e
      | Except.ok s1 =>
        let s2 := update_zero_and_negative_flags s1 result
        increment_program_counter s2 opcode.length

/-- `CPU::dex` (no PC adjustment in the source handler). -/
def dex (s : CPU) : CPU :=
  let s1 := { s with register_x := (s.register_x + 255) % 256 }
  update_zero_and_negative_flags s1 s1.register_x

/-- `CPU::dey`. -/
def dey (s : CPU) : CPU :=
  let s1 := { s with register_y := (s.register_y + 255) % 256 }
  update_zero_and_negative_flags s1 s1.register_y

/-- `CPU::eor`. -/
def eor (s : CPU) (opcode : Opcode) : Except EmuError CPU :=
  match get_operand_address s opcode.mode with
  | Except.error e => Except.error e
  | Except.ok address =>
    match mem_read s address with
    | Except.error e => Except.error e
    | Except.ok value =>
      let s1 := { s with accumulator := s.accumulator ^^^ value }
      let s2 := update_zero_and_negative_flags s1 s1.accumulator
      increment_program_counter s2 opcode.length

/-- `CPU::inc`. -/
def inc (s : CPU) (opcode : Opcode) : Except EmuError CPU :=
  match get_operand_address s opcode.mode with
  | Except.error e => Except.error e
  | Except.ok address =>
    match mem_read s address with
    | Except.error e => Except.error e
    | Except.ok value =>
      let result := (value + 1) % 256
      match mem_write s address result with
      | Except.error e => Except.error e
      | Except.ok s1 =>
        let s2 := update_zero_and_negative_flags s1 result
        increment_program_counter s2 opcode.length

/-- `CPU::inx`. -/
def inx (s : CPU) (opcode : Opcode) : Except EmuError CPU :=
  let s1 := { s with register_x := (s.register_x + 1) % 256 }
  let s2 := update_zero_and_negative_flags s1 s1.register_x
  increment_program_counter s2 opcode.length

/-- `CPU::iny`. -/
def iny (s : CPU) (opcode : Opcode) : Except EmuError CPU :=
  let s1 := { s with register_y := (s.register_y + 1) % 256 }
  let s2 := update_zero_and_negative_flags s1 s1.register_y
  increment_program_counter s2 opcode.length

/-- `CPU::lda`. -/
def lda (s : CPU) (opcode : Opcode) : Except EmuError CPU :=
  match get_operand_address s opcode.mode with
  | Except.error e => Except.error e
  | Except.ok address =>
    match mem_read s address with
    | Except.error e => Except.error e
    | Except.ok value =>
      let s1 := { s with accumulator := value }
      let s2 := update_zero_and_negative_flags s1 s1.accumulator
      increment_program_counter s2 opcode.length

/-- `CPU::ldx`. -/
def ldx (s : CPU) (opcode : Opcode) : Except EmuError CPU :=
  match get_operand_address s opcode.mode with
  | Except.error e => Except.error e
  | Except.ok address =>
    match mem_read s address with
    | Except.error e => Except.error e
    | Except.ok value =>
      let s1 := { s with register_x := value }
      let s2 := update_zero_and_negative_flags s1 s1.register_x
      increment_program_counter s2 opcode.length

/-- `CPU::ldy`. -/
def ldy (s : CPU) (opcode : Opcode) : Except EmuError CPU :=
  match get_operand_address s opcode.mode with
  | Except.error e => Except.error e
  | Except.ok address =>
    match mem_read s address with
    | Except.error e => Except.error e
    | Except.ok value =>
      let s1 := { s with register_y := value }
      let s2 := update_zero_and_negative_flags s1 s1.register_y
      increment_program_counter s2 opcode.length

/-- `CPU::lsr`: shift right; A in `None` mode, else write back to memory;
carry from old bit 0 (set or reset); N/Z from the shifted value. -/
def lsr (s : CPU) (opcode : Opcode) : Except EmuError CPU :=
  match (if opcode.mode = AddressingMode.None then
      Except.ok ({ s with accumulator := s.accumulator >>> 1 }, s.accumulator)
    else
      match get_operand_address s opcode.mode with
      | Except.error e => Except.error e
      | Except.ok address =>
        match mem_read s address with
        | Except.error e => Except.error e
        | Except.ok value =>
          match mem_write s address (value >>> 1) with
          | Except.error e => Except.error e
          | Except.ok s1 => Except.ok (s1, value)) with
  | Except.error e => Except.error e
  | Except.ok (s1, before) =>
    let s2 := if before &&& 0x01 = 1 then status_set s1 CARRY else status_reset s1 CARRY
    let s3 := update_zero_and_negative_flags s2 (before >>> 1)
    increment_program_counter s3 opcode.length

/-- `CPU::nop`. -/
def nop (s : CPU) : CPU := s

/-- `CPU::ora`. -/
def ora (s : CPU) (opcode : Opcode) : Except EmuError CPU :=
  match get_operand_address s opcode.mode with
  | Except.error e => Except.error e
  | Except.ok address =>
    match mem_read s address with
    | Except.error e => Except.error e
    | Except.ok value =>
      let s1 := { s with accumulator := s.accumulator ||| value }
      let s2 := update_zero_and_negative_flags s1 s1.accumulator
      increment_program_counter s2 opcode.length

/-- `CPU::pha`. -/
def pha (s : CPU) : Except EmuError CPU := push s s.accumulator

/-- `CPU::php`: pushes the raw status byte (`self.status.get()`). -/
def php (s : CPU) : Except EmuError CPU := push s s.status

/-- `CPU::pla`: pop into A, then N/Z from A. -/
def pla (s : CPU) : Except EmuError CPU :=
  match pop s with
  | Except.error e => Except.error e
  | Except.ok (s1, data) =>
    let s2 := { s1 with accumulator := data }
    Except.ok (update_zero_and_negative_flags s2 s2.accumulator)

/-- `CPU::plp`: pop and replace the whole status byte (`Status::insert`). -/
def plp (s : CPU) : Except EmuError CPU :=
  match pop s with
  | Except.error e => Except.error e
  | Except.ok (s1, data) => Except.ok { s1 with status := data }

/-- `CPU::rol`: 9-bit rotate left through carry.  In `None` mode the result
lands in A; otherwise it is written back to memory and A is untouched.  The
carry is then set from the operand's old bit 7, N from the result's bit 7, and
Z from `self.accumulator == 0` — the accumulator, not the result. -/
def rol (s : CPU) (opcode : Opcode) : Except EmuError CPU :=
  match (if opcode.mode = AddressingMode.None then
      let a := (((s.accumulator <<< 1) % 256) ||| (s.status &&& CARRY))
      Except.ok ({ s with accumulator := a }, s.accumulator &&& 0x80, a)
    else
      match get_operand_address s opcode.mode with
      | Except.error e => Except.error e
      | Except.ok address =>
        match mem_read s address with
        | Except.error e => Except.error e
        | Except.ok value =>
          let v2 := (((value <<< 1) % 256) ||| (s.status &&& CARRY))
          match mem_write s address v2 with
          | Except.error e => Except.error e
          | Except.ok s1 => Except.ok (s1, value &&& 0x80, v2)) with
  | Except.error e => Except.error e
  | Except.ok (s1, carry, result) =>
    let s2 := if carry = 0x80 then status_set s1 CARRY else status_reset s1 CARRY
    let s3 := if result &&& 0x80 = 0x80 then status_set s2 NEGATIV else status_reset s2 NEGATIV
    let s4 := if s3.accumulator = 0 then status_set s3 ZERO else status_reset s3 ZERO
    increment_program_counter s4 opcode.length

/-- `CPU::ror`: 9-bit rotate right through carry; same flag pattern as `rol`,
with Z again taken from the accumulator rather than the rotated byte. -/
def ror (s : CPU) (opcode : Opcode) : Except EmuError CPU :=
  match (if opcode.mode = AddressingMode.None then
      let a0 := s.accumulator >>> 1
      let a := if s.status &&& CARRY = 1 then a0 ||| 0x80 else a0
      Except.ok ({ s with accumulator := a }, s.accumulator &&& 0x01, a)
    else
      match get_operand_address s opcode.mode with
      | Except.error e => Except.error e
      | Except.ok address =>
        match mem_read s address with
        | Except.error e => Except.error e
        | Except.ok value =>
          let v0 := value >>> 1
          let v2 := if s.status &&& CARRY = 1 then v0 ||| 0x80 else v0
          match mem_write s address v2 with
          | Except.error e => Except.error e
          | Except.ok s1 => Except.ok (s1, value &&& 0x01, v2)) with
  | Except.error e => Except.error e
  | Except.ok (s1, carry, result) =>
    let s2 := if carry = 1 then status_set s1 CARRY else status_reset s1 CARRY
    let s3 := if result &&& 0x80 = 0x80 then status_set s2 NEGATIV else status_reset s2 NEGATIV
    let s4 := if s3.accumulator = 0 then status_set s3 ZERO else status_reset s3 ZERO
    increment_program_counter s4 opcode.length

/-- `CPU::sbc`: `value = !value + 1` (checked u8 addition — it overflows and
panics when `value == 0`), then `add_to_accumulator`, N/Z from A, advance PC. -/
def sbc (s : CPU) (opcode : Opcode) : Except EmuError CPU :=
  match get_operand_address s opcode.mode with
  | Except.error e => Except.error e
  | Except.ok address =>
    match mem_read s address with
    | Except.error e => Except.error e
    | Except.ok value =>
      match u8_add (255 - value) 1 with
      | Except.error e => Except.error e
      | Except.ok value2 =>
        let s1 := add_to_accumulator s value2
        let s2 := update_zero_and_negative_flags s1 s1.accumulator
        increment_program_counter s2 opcode.length

/-- `CPU::sta`. -/
def sta (s : CPU) (opcode : Opcode) : Except EmuError CPU :=
  match get_operand_address s opcode.mode with
  | Except.error e => Except.error e
  | Except.ok address =>
    match mem_write s address s.accumulator with
    | Except.error e => Except.error e
    | Except.ok s1 => increment_program_counter s1 opcode.length

/-- `CPU::stx`. -/
def stx (s : CPU) (opcode : Opcode) : Except EmuError CPU :=
  match get_operand_address s opcode.mode with
  | Except.error e => Except.error e
  | Except.ok address =>
    match mem_write s address s.register_x with
    | Except.error e => Except.error e
    | Except.ok s1 => increment_program_counter s1 opcode.length

/-- `CPU::sty`. -/
def sty (s : CPU) (opcode : Opcode) : Except EmuError CPU :=
  match get_operand_address s opcode.mode with
  | Except.error e => Except.error e
  | Except.ok address =>
    match mem_write s address s.register_y with
    | Except.error e => Except.error e
    | Except.ok s1 => increment_program_counter s1 opcode.length

/-- `CPU::tax`. -/
def tax (s : CPU) : CPU :=
  let s1 := { s with register_x := s.accumulator }
  update_zero_and_negative_flags s1 s1.register_x

/-- `CPU::tay`. -/
def tay (s : CPU) : CPU :=
  let s1 := { s with register_y := s.accumulator }
  update_zero_and_negative_flags s1 s1.register_y

/-- `CPU::tsx`: `register_x = stack_pointer as u8`. -/
def tsx (s : CPU) : CPU :=
  let s1 := { s with register_x := s.stack_pointer % 256 }
  update_zero_and_negative_flags s1 s1.register_x

/-- `CPU::txa`. -/
def txa (s : CPU) : CPU :=
  let s1 := { s with accumulator := s.register_x }
  update_zero_and_negative_flags s1 s1.accumulator

/-- `CPU::txs`: `stack_pointer = (register_x as u16) | 0x100`; no flags. -/
def txs (s : CPU) : CPU :=
  { s with stack_pointer := s.register_x ||| 0x100 }

/-- `CPU::tya`. -/
def tya (s : CPU) : CPU :=
  let s1 := { s with accumulator := s.register_y }
  update_zero_and_negative_flags s1 s1.accumulator

/-- Lifts a fallible handler result into the `(state, continue)` pair returned
by `CPU::interpret`; every handler except BRK continues execution. -/
def with_continue (r : Except EmuError CPU) : Except EmuError (CPU × Bool) :=
  match r with
  | Except.error e => Except.error e
  | Except.ok s => Except.ok (s, true)

/-- `CPU::interpret`: dispatch on `opcode.code`.  The wildcard arm panics with
`"Unknown opcode: {:#x}"` formatted with `opcode.code` — the code stored in the
TABLE ENTRY (0x02 for every unpopulated slot), not the fetched byte. -/
def interpret (s : CPU) (opcode : Opcode) : Except EmuError (CPU × Bool) :=
  match opcode.code with
  | 0x00 =>
    (match increment_program_counter s opcode.length with
     | Except.error e => Except.error e
     | Except.ok s1 => Except.ok (s1, false))
  | 0x69 | 0x65 | 0x75 | 0x6D | 0x7D | 0x79 | 0x61 | 0x71 => with_continue (adc s opcode)
  | 0x29 | 0x25 | 0x35 | 0x2D | 0x3D | 0x39 | 0x21 | 0x31 => with_continue (and s opcode)
  | 0xC9 | 0xC5 | 0xD5 | 0xCD | 0xDD | 0xD9 | 0xC1 | 0xD1 =>
    with_continue (compare s opcode s.accumulator)
  | 0xE0 | 0xE4 | 0xEC => with_continue (compare s opcode s.register_x)
  | 0xC0 | 0xC4 | 0xCC => with_continue (compare s opcode s.register_y)
  | 0x0A | 0x06 | 0x16 | 0x0E | 0x1E => with_continue (asl s opcode)
  | 0x18 => Except.ok (status_reset s CARRY, true)
  | 0xD8 => Except.ok (status_reset s DECIMAL_MODE, true)
  | 0x58 => Except.ok (status_reset s INTERRUPT_DISABLE, true)
  | 0xB8 => Except.ok (status_reset s OVERFLOW, true)
  | 0xC6 | 0xD6 | 0xCE | 0xDE => with_continue (dec s opcode)
  | 0xCA => Except.ok (dex s, true)
  | 0x88 => Except.ok (dey s, true)
  | 0x49 | 0x45 | 0x55 | 0x4D | 0x5D | 0x59 | 0x41 | 0x51 => with_continue (eor s opcode)
  | 0xE6 | 0xF6 | 0xEE | 0xFE => with_continue (inc s opcode)
  | 0xE8 => with_continue (inx s opcode)
  | 0xC8 => with_continue (iny s opcode)
  | 0xA9 | 0xA5 | 0xB5 | 0xAD | 0xBD | 0xB9 | 0xA1 | 0xB1 => with_continue (lda s opcode)
  | 0xA2 | 0xA6 | 0xB6 | 0xAE | 0xBE => with_continue (ldx s opcode)
  | 0xA0 | 0xA4 | 0xB4 | 0xAC | 0xBC => with_continue (ldy s opcode)
  | 0x4A | 0x46 | 0x56 | 0x4E | 0x5E => with_continue (lsr s opcode)
  | 0xEA => Except.ok (nop s, true)
  | 0x09 | 0x05 | 0x15 | 0x0D | 0x1D | 0x19 | 0x01 | 0x11 => with_continue (ora s opcode)
  | 0x48 => with_continue (pha s)
  | 0x08 => with_continue (php s)
  | 0x68 => with_continue (pla s)
  | 0x28 => with_continue (plp s)
  | 0x2A | 0x26 | 0x36 | 0x2E | 0x3E => with_continue (rol s opcode)
  | 0x6A | 0x66 | 0x76 | 0x6E | 0x7E => with_continue (ror s opcode)
  | 0xE9 | 0xE5 | 0xF5 | 0xED | 0xFD | 0xF9 | 0xE1 | 0xF1 => with_continue (sbc s opcode)
  | 0x38 => Except.ok (status_set s CARRY, true)
  | 0xF8 => Except.ok (status_set s DECIMAL_MODE, true)
  | 0x78 => Except.ok (status_set s INTERRUPT_DISABLE, true)
  | 0x85 | 0x95 | 0x8D | 0x9D | 0x99 | 0x81 | 0x91 => with_continue (sta s opcode)
  | 0x86 | 0x96 | 0x8E => with_continue (stx s opcode)
  | 0x84 | 0x94 | 0x8C => with_continue (sty s opcode)
  | 0xAA => Except.ok (tax s, true)
  | 0xA8 => Except.ok (tay s, true)
  | 0xBA => Except.ok (tsx s, true)
  | 0x8A => Except.ok (txa s, true)
  | 0x9A => Except.ok (txs s, true)
  | 0x98 => Except.ok (tya s, true)
  | _ => Except.error (EmuError.unknownOpcode opcode.code)

/-- The number of slots in the Rust opcode table `[Opcode; 0xFF]`: 255, not 256. -/
def OPCODE_TABLE_SIZE : Nat := 0xFF

/-- `CPU::create_opcode_table`, transcribed entry by entry; indices never
assigned in the source hold `Opcode.basic`.  Lookup bounds (`index < 0xFF`)
are enforced at the indexing site in `run_step`, as in the source. -/
def opcode_table (index : Nat) : Opcode :=
  match index with
  | 0x69 => ⟨0x69, "ADC", 2, 2, AddressingMode.Immediate⟩
  | 0x65 => ⟨0x65, "ADC", 2, 3, AddressingMode.ZeroPage⟩
  | 0x75 => ⟨0x75, "ADC", 2, 4, AddressingMode.ZeroPage_X⟩
  | 0x6D => ⟨0x6D, "ADC", 3, 4, AddressingMode.Absolute⟩
  | 0x7D => ⟨0x7D, "ADC", 3, 4, AddressingMode.Absolute_X⟩
  | 0x79 => ⟨0x79, "ADC", 3, 4, AddressingMode.Absolute_Y⟩
  | 0x61 => ⟨0x61, "ADC", 2, 6, AddressingMode.Indirect_X⟩
  | 0x71 => ⟨0x71, "ADC", 2, 5, AddressingMode.Indirect_Y⟩
  | 0x29 => ⟨0x29, "AND", 2, 2, AddressingMode.Immediate⟩
  | 0x25 => ⟨0x25, "AND", 2, 3, AddressingMode.ZeroPage⟩
  | 0x35 => ⟨0x35, "AND", 2, 4, AddressingMode.ZeroPage_X⟩
  | 0x2D => ⟨0x2D, "AND", 3, 4, AddressingMode.Absolute⟩
  | 0x3D => ⟨0x3D, "AND", 3, 4, AddressingMode.Absolute_X⟩
  | 0x39 => ⟨0x39, "AND", 3, 4, AddressingMode.Absolute_Y⟩
  | 0x21 => ⟨0x21, "AND", 2, 6, AddressingMode.Indirect_X⟩
  | 0x31 => ⟨0x31, "AND", 2, 5, AddressingMode.Indirect_Y⟩
  | 0x0A => ⟨0x0A, "ASL", 1, 2, AddressingMode.None⟩
  | 0x06 => ⟨0x06, "ASL", 2, 5, AddressingMode.ZeroPage⟩
  | 0x16 => ⟨0x16, "ASL", 2, 6, AddressingMode.ZeroPage_X⟩
  | 0x0E => ⟨0x0E, "ASL", 1, 6, AddressingMode.Absolute⟩
  | 0x1E => ⟨0x1E, "ASL", 1, 7, AddressingMode.Absolute_X⟩
  | 0x00 => ⟨0x00, "BRK", 1, 7, AddressingMode.None⟩
  | 0x18 => ⟨0x18, "CLC", 1, 2, AddressingMode.None⟩
  | 0xD8 => ⟨0xD8, "CLD", 1, 2, AddressingMode.None⟩
  | 0x58 => ⟨0x58, "CLI", 1, 2, AddressingMode.None⟩
  | 0xB8 => ⟨0xB8, "CLV", 1, 2, AddressingMode.None⟩
  | 0xC9 => ⟨0xC9, "CMP", 2, 2, AddressingMode.Immediate⟩
  | 0xC5 => ⟨0xC5, "CMP", 2, 3, AddressingMode.ZeroPage⟩
  | 0xD5 => ⟨0xD5, "CMP", 2, 4, AddressingMode.ZeroPage_X⟩
  | 0xCD => ⟨0xCD, "CMP", 3, 4, AddressingMode.Absolute⟩
  | 0xDD => ⟨0xDD, "CMP", 3, 4, AddressingMode.Absolute_X⟩
  | 0xD9 => ⟨0xD9, "CMP", 3, 4, AddressingMode.Absolute_Y⟩
  | 0xC1 => ⟨0xC1, "CMP", 2, 6, AddressingMode.Indirect_X⟩
  | 0xD1 => ⟨0xD1, "CMP", 2, 5, AddressingMode.Indirect_Y⟩
  | 0xE0 => ⟨0xE0, "CPX", 2, 2, AddressingMode.Immediate⟩
  | 0xE4 => ⟨0xE4, "CPX", 2, 3, AddressingMode.ZeroPage⟩
  | 0xEC => ⟨0xEC, "CPX", 3, 4, AddressingMode.Absolute⟩
  | 0xC0 => ⟨0xC0, "CPY", 2, 2, AddressingMode.Immediate⟩
  | 0xC4 => ⟨0xC4, "CPY", 2, 3, AddressingMode.ZeroPage⟩
  | 0xCC => ⟨0xCC, "CPY", 3, 4, AddressingMode.Absolute⟩
  | 0xC6 => ⟨0xC6, "DEC", 2, 5, AddressingMode.ZeroPage⟩
  | 0xD6 => ⟨0xD6, "DEC", 2, 6, AddressingMode.ZeroPage_X⟩
  | 0xCE => ⟨0xCE, "DEC", 3, 6, AddressingMode.Absolute⟩
  | 0xDE => ⟨0xDE, "DEC", 3, 7, AddressingMode.Absolute_X⟩
  | 0xCA => ⟨0xCA, "DEX", 1, 2, AddressingMode.None⟩
  | 0x88 => ⟨0x88, "DEY", 1, 2, AddressingMode.None⟩
  | 0x49 => ⟨0x49, "EOR", 2, 2, AddressingMode.Immediate⟩
  | 0x45 => ⟨0x45, "EOR", 2, 3, AddressingMode.ZeroPage⟩
  | 0x55 => ⟨0x55, "EOR", 2, 4, AddressingMode.ZeroPage_X⟩
  | 0x4D => ⟨0x4D, "EOR", 3, 4, AddressingMode.Absolute⟩
  | 0x5D => ⟨0x5D, "EOR", 3, 4, AddressingMode.Absolute_X⟩
  | 0x59 => ⟨0x59, "EOR", 3, 4, AddressingMode.Absolute_Y⟩
  | 0x41 => ⟨0x41, "EOR", 2, 6, AddressingMode.Indirect_X⟩
  | 0x51 => ⟨0x51, "EOR", 2, 5, AddressingMode.Indirect_Y⟩
  | 0xE6 => ⟨0xE6, "INC", 2, 5, AddressingMode.ZeroPage⟩
  | 0xF6 => ⟨0xF6, "INC", 2, 6, AddressingMode.ZeroPage_X⟩
  | 0xEE => ⟨0xEE, "INC", 3, 6, AddressingMode.Absolute⟩
  | 0xFE => ⟨0xFE, "INC", 3, 7, AddressingMode.Absolute_X⟩
  | 0xE8 => ⟨0xE8, "INX", 1, 2, AddressingMode.None⟩
  | 0xC8 => ⟨0xC8, "INY", 1, 2, AddressingMode.None⟩
  | 0xA9 => ⟨0xA9, "LDA", 2, 2, AddressingMode.Immediate⟩
  | 0xA5 => ⟨0xA5, "LDA", 2, 3, AddressingMode.ZeroPage⟩
  | 0xB5 => ⟨0xB5, "LDA", 2, 4, AddressingMode.ZeroPage_X⟩
  | 0xAD => ⟨0xAD, "LDA", 3, 4, AddressingMode.Absolute⟩
  | 0xBD => ⟨0xBD, "LDA", 3, 4, AddressingMode.Absolute_X⟩
  | 0xB9 => ⟨0xB9, "LDA", 3, 4, AddressingMode.Absolute_Y⟩
  | 0xA1 => ⟨0xA1, "LDA", 2, 6, AddressingMode.Indirect_X⟩
  | 0xB1 => ⟨0xB1, "LDA", 2, 5, AddressingMode.Indirect_Y⟩
  | 0xA2 => ⟨0xA2, "LDX", 2, 2, AddressingMode.Immediate⟩
  | 0xA6 => ⟨0xA6, "LDX", 2, 3, AddressingMode.ZeroPage⟩
  | 0xB6 => ⟨0xB6, "LDX", 2, 4, AddressingMode.ZeroPage_X⟩
  | 0xAE => ⟨0xAE, "LDX", 3, 4, AddressingMode.Absolute⟩
  | 0xBE => ⟨0xBE, "LDX", 3, 4, AddressingMode.Absolute_Y⟩
  | 0xA0 => ⟨0xA0, "LDY", 2, 2, AddressingMode.Immediate⟩
  | 0xA4 => ⟨0xA4, "LDY", 2, 3, AddressingMode.ZeroPage⟩
  | 0xB4 => ⟨0xB4, "LDY", 2, 4, AddressingMode.ZeroPage_X⟩
  | 0xAC => ⟨0xAC, "LDY", 3, 4, AddressingMode.Absolute⟩
  | 0xBC => ⟨0xBC, "LDY", 3, 4, AddressingMode.Absolute_Y⟩
  | 0x4A => ⟨0x4A, "LSR", 1, 2, AddressingMode.None⟩
  | 0x46 => ⟨0x46, "LSR", 2, 5, AddressingMode.ZeroPage⟩
  | 0x56 => ⟨0x56, "LSR", 2, 6, AddressingMode.ZeroPage_X⟩
  | 0x4E => ⟨0x4E, "LSR", 3, 6, AddressingMode.Absolute⟩
  | 0x5E => ⟨0x5E, "LSR", 3, 7, AddressingMode.Absolute_X⟩
  | 0xEA => ⟨0xEA, "NOP", 1, 2, AddressingMode.None⟩
  | 0x09 => ⟨0x09, "ORA", 2, 2, AddressingMode.Immediate⟩
  | 0x05 => ⟨0x05, "ORA", 2, 3, AddressingMode.ZeroPage⟩
  | 0x15 => ⟨0x15, "ORA", 2, 4, AddressingMode.ZeroPage_X⟩
  | 0x0D => ⟨0x0D, "ORA", 3, 4, AddressingMode.Absolute⟩
  | 0x1D => ⟨0x1D, "ORA", 3, 4, AddressingMode.Absolute_X⟩
  | 0x19 => ⟨0x19, "ORA", 3, 4, AddressingMode.Absolute_Y⟩
  | 0x01 => ⟨0x01, "ORA", 2, 6, AddressingMode.Indirect_X⟩
  | 0x11 => ⟨0x11, "ORA", 2, 5, AddressingMode.Indirect_Y⟩
  | 0x48 => ⟨0x48, "PHA", 1, 3, AddressingMode.None⟩
  | 0x08 => ⟨0x08, "PHP", 1, 3, AddressingMode.None⟩
  | 0x68 => ⟨0x68, "PLA", 1, 4, AddressingMode.None⟩
  | 0x28 => ⟨0x28, "PLP", 1, 4, AddressingMode.None⟩
  | 0x2A => ⟨0x2A, "ROL", 1, 2, AddressingMode.None⟩
  | 0x26 => ⟨0x26, "ROL", 2, 5, AddressingMode.ZeroPage⟩
  | 0x36 => ⟨0x36, "ROL", 2, 6, AddressingMode.ZeroPage_X⟩
  | 0x2E => ⟨0x2E, "ROL", 3, 6, AddressingMode.Absolute⟩
  | 0x3E => ⟨0x3E, "ROL", 3, 7, AddressingMode.Absolute_X⟩
  | 0x6A => ⟨0x6A, "ROR", 1, 2, AddressingMode.None⟩
  | 0x66 => ⟨0x66, "ROR", 2, 5, AddressingMode.ZeroPage⟩
  | 0x76 => ⟨0x76, "ROR", 2, 6, AddressingMode.ZeroPage_X⟩
  | 0x6E => ⟨0x6E, "ROR", 3, 6, AddressingMode.Absolute⟩
  | 0x7E => ⟨0x7E, "ROR", 3, 7, AddressingMode.Absolute_X⟩
  | 0xE9 => ⟨0xE9, "SBC", 2, 2, AddressingMode.Immediate⟩
  | 0xE5 => ⟨0xE5, "SBC", 2, 3, AddressingMode.ZeroPage⟩
  | 0xF5 => ⟨0xF5, "SBC", 2, 4, AddressingMode.ZeroPage_X⟩
  | 0xED => ⟨0xED, "SBC", 3, 4, AddressingMode.Absolute⟩
  | 0xFD => ⟨0xFD, "SBC", 3, 4, AddressingMode.Absolute_X⟩
  | 0xF9 => ⟨0xF9, "SBC", 3, 4, AddressingMode.Absolute_Y⟩
  | 0xE1 => ⟨0xE1, "SBC", 2, 6, AddressingMode.Indirect_X⟩
  | 0xF1 => ⟨0xF1, "SBC", 2, 5, AddressingMode.Indirect_Y⟩
  | 0x38 => ⟨0x38, "SEC", 1, 2, AddressingMode.None⟩
  | 0xF8 => ⟨0xF8, "SED", 1, 2, AddressingMode.None⟩
  | 0x78 => ⟨0x78, "SEI", 1, 2, AddressingMode.None⟩
  | 0x85 => ⟨0x85, "STA", 2, 3, AddressingMode.ZeroPage⟩
  | 0x95 => ⟨0x95, "STA", 2, 4, AddressingMode.ZeroPage_X⟩
  | 0x8D => ⟨0x8D, "STA", 3, 4, AddressingMode.Absolute⟩
  | 0x9D => ⟨0x9D, "STA", 3, 5, AddressingMode.Absolute_X⟩
  | 0x99 => ⟨0x99, "STA", 3, 5, AddressingMode.Absolute_Y⟩
  | 0x81 => ⟨0x81, "STA", 2, 6, AddressingMode.Indirect_X⟩
  | 0x91 => ⟨0x91, "STA", 2, 6, AddressingMode.Indirect_Y⟩
  | 0x86 => ⟨0x86, "STX", 2, 3, AddressingMode.ZeroPage⟩
  | 0x96 => ⟨0x96, "STX", 2, 4, AddressingMode.ZeroPage_X⟩
  | 0x8E => ⟨0x8E, "STX", 3, 4, AddressingMode.Absolute⟩
  | 0x84 => ⟨0x84, "STY", 2, 3, AddressingMode.ZeroPage⟩
  | 0x94 => ⟨0x94, "STY", 2, 4, AddressingMode.ZeroPage_X⟩
  | 0x8C => ⟨0x8C, "STY", 3, 4, AddressingMode.Absolute⟩
  | 0xAA => ⟨0xAA, "TAX", 1, 2, AddressingMode.None⟩
  | 0xA8 => ⟨0xA8, "TAY", 1, 2, AddressingMode.None⟩
  | 0xBA => ⟨0xBA, "TSX", 1, 2, AddressingMode.None⟩
  | 0x8A => ⟨0x8A, "TXA", 1, 2, AddressingMode.None⟩
  | 0x9A => ⟨0x9A, "TXS", 1, 2, AddressingMode.None⟩
  | 0x98 => ⟨0x98, "TYA", 1, 2, AddressingMode.None⟩
  | _ => Opcode.basic

/-- One iteration of the `run_with_callback` loop (with the observer callback,
which is external input, elided): fetch the byte at PC, index the 255-entry
opcode table (panicking when the byte is `0xFF`), advance PC by 1, dispatch.
The returned boolean is the loop's `continue_execution` value. -/
def run_step (s : CPU) : Except EmuError (CPU × Bool) :=
  match mem_read s s.program_counter with
  | Except.error e => Except.error e
  | Except.ok opcode_number =>
    if opcode_number < OPCODE_TABLE_SIZE then
      let opcode := opcode_table opcode_number
      match u16_add s.program_counter 1 with
      | Except.error e => Except.error e
      | Except.ok pc => interpret { s with program_counter := pc } opcode
    else Except.error EmuError.indexOutOfBounds

/-- Whether an interpreter result is a successful (non-aborted) run. -/
def except_ok {α : Type} (r : Except EmuError α) : Bool :=
  match r with
  | Except.ok _ => true
  | Except.error _ => false

/-! ## Concrete machine states used to settle individual claims -/

/-- State about to execute SBC Immediate (`E9 80`) with A = 0x80 and carry clear. -/
def cpuC2 : CPU :=
  { accumulator := 0x80, status := 0, program_counter := 0x10, stack_pointer := 0x01FD
  , register_x := 0, register_y := 0
  , memory := fun a => if a = 0x10 then 0x80 else 0 }

/-- State about to execute an instruction at PC = 0x0600 whose bytes are
`0E 34 12` (ASL Absolute with effective address 0x1234). -/
def cpuC3 : CPU :=
  { accumulator := 0, status := 0, program_counter := 0x0600, stack_pointer := 0x01FD
  , register_x := 0, register_y := 0
  , memory := fun a => if a = 0x0600 then 0x0E else if a = 0x0601 then 0x34
      else if a = 0x0602 then 0x12 else 0 }

/-- State about to execute ASL ZeroPage (`06 05`) with `MEM[0x05] = 1`, A = 0,
and the carry flag already set. -/
def cpuC4 : CPU :=
  { accumulator := 0, status := 1, program_counter := 0x20, stack_pointer := 0x01FD
  , register_x := 0, register_y := 0
  , memory := fun a => if a = 0x20 then 0x05 else if a = 0x05 then 1 else 0 }

/-- State about to execute ROL ZeroPage (`26 05`) with `MEM[0x05] = 0x70`,
A = 0 and carry clear: the rotated byte is 0xE0 (nonzero) while A stays 0. -/
def cpuC5 : CPU :=
  { accumulator := 0, status := 0, program_counter := 0x20, stack_pointer := 0x01FD
  , register_x := 0, register_y := 0
  , memory := fun a => if a = 0x20 then 0x05 else if a = 0x05 then 0x70 else 0 }

/-- State whose next fetched byte is 0x03 — an in-range opcode with no
populated table entry. -/
def cpuC6a : CPU :=
  { accumulator := 0, status := 0, program_counter := 0x0600, stack_pointer := 0x01FD
  , register_x := 0, register_y := 0
  , memory := fun a => if a = 0x0600 then 0x03 else 0 }

/-- State whose next fetched byte is 0xFF — past the end of the 255-entry table. -/
def cpuC6b : CPU :=
  { accumulator := 0, status := 0, program_counter := 0x0600, stack_pointer := 0x01FD
  , register_x := 0, register_y := 0
  , memory := fun a => if a = 0x0600 then 0xFF else 0 }

/-- State about to execute STA ZeroPage (`85 05`) with A = 0x42. -/
def cpuC7 : CPU :=
  { accumulator := 0x42, status := 0xA5, program_counter := 0x10, stack_pointer := 0x01FD
  , register_x := 0x17, register_y := 0x18
  , memory := fun a => if a = 0x10 then 0x05 else 0 }

/-- The state after `sta cpuC7 (opcode_table 0x85)` (extracted from the run). -/
def cpuC7' : CPU :=
  match sta cpuC7 (opcode_table 0x85) with
  | Except.ok t => t
  | Except.error _ => cpuC7

/-- Initial state for the PHP/PLP round trip: P = 0xB5, SP = 0x01FD. -/
def cpuC8 : CPU :=
  { accumulator := 0, status := 0xB5, program_counter := 0x10, stack_pointer := 0x01FD
  , register_x := 0, register_y := 0, memory := fun _ => 0 }

/-- A state reached after PHP from `cpuC8` and some flag-changing work:
P has changed to 0x22, SP is still 0x01FC, and the stack cell written by PHP
(address 0x01FD) still holds 0xB5. -/
def cpuC8t : CPU :=
  { accumulator := 0x31, status := 0x22, program_counter := 0x15, stack_pointer := 0x01FC
  , register_x := 0, register_y := 0
  , memory := fun a => if a = 0x01FD then 0xB5 else 0 }

/-- State about to execute opcode 0xBC (`BC 10 00`) with X = 1, Y = 2,
`MEM[0x0011] = 0xBB` (the LDY AbsoluteX operand) and `MEM[0x0012] = 0xAA`
(the byte an AbsoluteY read hits). -/
def cpuC9 : CPU :=
  { accumulator := 0, status := 0, program_counter := 0x0600, stack_pointer := 0x01FD
  , register_x := 1, register_y := 2
  , memory := fun a => if a = 0x0600 then 0xBC else if a = 0x0601 then 0x10
      else if a = 0x11 then 0xBB else if a = 0x12 then 0xAA else 0 }

/-- The state after `asl cpuC4 (opcode_table 0x06)` (ASL ZeroPage). -/
def aslZpC4 : CPU :=
  match asl cpuC4 (opcode_table 0x06) with
  | Except.ok t => t
  | Except.error _ => cpuC4

/-- The state after `asl cpuC4 (opcode_table 0x0A)` (ASL Implied). -/
def aslImplC4 : CPU :=
  match asl cpuC4 (opcode_table 0x0A) with
  | Except.ok t => t
  | Except.error _ => cpuC4

/-- The state after `rol cpuC5 (opcode_table 0x26)` (ROL ZeroPage). -/
def rolZpC5 : CPU :=
  match rol cpuC5 (opcode_table 0x26) with
  | Except.ok t => t
  | Except.error _ => cpuC5

/-- The state after `ror cpuC5 (opcode_table 0x66)` (ROR ZeroPage). -/
def rorZpC5 : CPU :=
  match ror cpuC5 (opcode_table 0x66) with
  | Except.ok t => t
  | Except.error _ => cpuC5

/-- The state after `load CPU.new [1, 2, 3]` (extracted from the run). -/
def cpuC10' : CPU :=
  match load CPU.new [1, 2, 3] with
  | Except.ok t => t
  | Except.error _ => CPU.new

/-! ## Shared inversion and preservation lemmas -/

theorem mem_write_eq (s : CPU) (a v : Nat) (s' : CPU)
    (h : mem_write s a v = Except.ok s') :
    a < MEM_SIZE ∧ s' = { s with memory := fun x => if x = a then v else s.memory x } := by
  unfold mem_write at h
  by_cases hb : a < MEM_SIZE
  · refine ⟨hb, ?_⟩
    rw [if_pos hb] at h
    exact (Except.ok.inj h).symm
  · rw [if_neg hb] at h
    exact absurd h (by simp)

theorem mem_write_u16_eq (s : CPU) (addr data : Nat) (s' : CPU)
    (h : mem_write_u16 s addr data = Except.ok s') :
    s'.memory = (fun x => if x = addr + 1 then (data >>> 8) % 256
      else if x = addr then data &&& 0xFF else s.memory x)
    ∧ s'.status = s.status := by
  unfold mem_write_u16 at h
  cases hm1 : mem_write s addr (data &&& 0xFF) with
  | error e => rw [hm1] at h; exact absurd h (by simp)
  | ok s1 =>
    rw [hm1] at h
    obtain ⟨-, hs1⟩ := mem_write_eq _ _ _ _ hm1
    unfold u16_add at h
    by_cases h2 : addr + 1 < 0x10000
    · simp only [if_pos h2] at h
      cases hm2 : mem_write s1 (addr + 1) ((data >>> 8) % 256) with
      | error e => rw [hm2] at h; exact absurd h (by simp)
      | ok s2 =>
        rw [hm2] at h
        obtain ⟨-, hs2⟩ := mem_write_eq _ _ _ _ hm2
        have hs'' : s' = s2 := (Except.ok.inj h).symm
        subst hs''
        subst hs2
        subst hs1
        refine ⟨?_, rfl⟩
        funext x
        by_cases hx1 : x = addr + 1
        · simp [hx1]
        · by_cases hx0 : x = addr <;> simp [hx0, hx1]
    · simp only [if_neg h2] at h
      exact absurd h (by simp)

theorem increment_pc_eq (s : CPU) (n : Nat) (s' : CPU)
    (h : increment_program_counter s n = Except.ok s') :
    s' = { s with program_counter := s.program_counter + (n - 1) } := by
  unfold increment_program_counter u16_sub u16_add at h
  by_cases h1 : 1 ≤ n
  · simp only [if_pos h1] at h
    by_cases h2 : s.program_counter + (n - 1) < 0x10000
    · simp only [if_pos h2] at h
      exact (Except.ok.inj h).symm
    · simp only [if_neg h2] at h
      exact absurd h (by simp)
  · simp only [if_neg h1] at h
    exact absurd h (by simp)

theorem ite_accumulator (c : Prop) [Decidable c] (x y : CPU) :
    (if c then x else y).accumulator = if c then x.accumulator else y.accumulator := by
  split <;> rfl

theorem ite_memory (c : Prop) [Decidable c] (x y : CPU) :
    (if c then x else y).memory = if c then x.memory else y.memory := by
  split <;> rfl

theorem ite_status (c : Prop) [Decidable c] (x y : CPU) :
    (if c then x else y).status = if c then x.status else y.status := by
  split <;> rfl

theorem testBit_ite (c : Prop) [Decidable c] (a b i : Nat) :
    (if c then a else b).testBit i = if c then a.testBit i else b.testBit i := by
  split <;> rfl

theorem status_set_accumulator (s : CPU) (f : Nat) :
    (status_set s f).accumulator = s.accumulator := rfl

theorem status_reset_accumulator (s : CPU) (f : Nat) :
    (status_reset s f).accumulator = s.accumulator := rfl

theorem status_set_memory (s : CPU) (f : Nat) :
    (status_set s f).memory = s.memory := rfl

theorem status_reset_memory (s : CPU) (f : Nat) :
    (status_reset s f).memory = s.memory := rfl

theorem status_set_status (s : CPU) (f : Nat) :
    (status_set s f).status = s.status ||| f := rfl

theorem status_reset_status (s : CPU) (f : Nat) :
    (status_reset s f).status = s.status &&& (255 - f) := rfl

theorem update_nz_accumulator (s : CPU) (r : Nat) :
    (update_zero_and_negative_flags s r).accumulator = s.accumulator := by
  unfold update_zero_and_negative_flags status_set status_reset
  split <;> split <;> rfl

theorem update_nz_memory (s : CPU) (r : Nat) :
    (update_zero_and_negative_flags s r).memory = s.memory := by
  unfold update_zero_and_negative_flags status_set status_reset
  split <;> split <;> rfl

theorem update_nz_testBit0 (s : CPU) (r : Nat) :
    (update_zero_and_negative_flags s r).status.testBit 0 = s.status.testBit 0 := by
  unfold update_zero_and_negative_flags status_set status_reset
  split <;> split <;>
    simp only [ZERO, NEGATIV, Nat.testBit_or, Nat.testBit_and] <;>
    simp [Nat.testBit_to_div_mod]

theorem update_nz_testBit6 (s : CPU) (r : Nat) :
    (update_zero_and_negative_flags s r).status.testBit 6 = s.status.testBit 6 := by
  unfold update_zero_and_negative_flags status_set status_reset
  split <;> split <;>
    simp only [ZERO, NEGATIV, Nat.testBit_or, Nat.testBit_and] <;>
    simp [Nat.testBit_to_div_mod]

theorem add_to_accumulator_spec (s : CPU) (data : Nat) :
    (add_to_accumulator s data).accumulator
      = (s.accumulator + data + s.status % 2) % 256
    ∧ (add_to_accumulator s data).status.testBit 0
      = decide (0xff < s.accumulator + data + s.status % 2)
    ∧ (add_to_accumulator s data).status.testBit 6
      = decide (((data ^^^ ((s.accumulator + data + s.status % 2) % 256))
          &&& (((s.accumulator + data + s.status % 2) % 256) ^^^ s.accumulator))
          &&& 0x80 ≠ 0) := by
  have hc : (if s.status &&& 0x01 = 1 then 1 else 0) = s.status % 2 := by
    rw [Nat.and_one_is_mod]
    rcases Nat.mod_two_eq_zero_or_one s.status with hm | hm <;> simp [hm]
  simp only [add_to_accumulator, hc]
  refine ⟨by trivial, ?_, ?_⟩ <;>
  · split_ifs <;>
      simp only [status_set, status_reset, CARRY, OVERFLOW, Nat.testBit_or,
        Nat.testBit_and] <;>
      simp_all [Nat.testBit_to_div_mod]

/-! ## Claim theorems -/

/-- C1: the claim asserts that `mem_read`/`mem_write` succeed for every address
in `0x0000..=0xFFFF` and that `mem_read_u16` wraps the address-plus-one
computation modulo 0x10000.  The code's backing array has length 0xFFFF, so the
last address 0xFFFF is out of bounds: `mem_read 0xFFFF` and
`mem_write 0xFFFF` abort with an index-out-of-bounds panic, and
`mem_read_u16 0xFFFE` and `mem_read_u16 0xFFFF` abort as well instead of
wrapping; this theorem evaluates the model at those failing inputs. -/
theorem mem_access_fails_at_FFFF :
    mem_read CPU.new 0xFFFF = Except.error EmuError.indexOutOfBounds
    ∧ except_ok (mem_write CPU.new 0xFFFF 0x01) = false
    ∧ mem_read_u16 CPU.new 0xFFFE = Except.error EmuError.indexOutOfBounds
    ∧ mem_read_u16 CPU.new 0xFFFF = Except.error EmuError.indexOutOfBounds
    ∧ except_ok (mem_read CPU.new 0xFFFE) = true := by
  refine ⟨rfl, rfl, rfl, rfl, rfl⟩

/-- C3: the claim asserts that PC advances by the §4.4 table length — 3 bytes
for ASL Absolute (0x0E) and ASL AbsoluteX (0x1E).  The source table registers
both with `length = 1`, so a step that executes the 3-byte instruction
`0E 34 12` at PC = 0x0600 leaves PC at 0x0601, an advance of 1 rather than 3. -/
theorem asl_absolute_pc_advance_bug :
    (opcode_table 0x0E).length = 1
    ∧ (opcode_table 0x1E).length = 1
    ∧ (run_step cpuC3).map (fun p => p.1.program_counter) = Except.ok 0x0601
    ∧ (0x0601 : Nat) ≠ 0x0600 + 3 := by
  refine ⟨rfl, rfl, rfl, by decide⟩

/-- C6: the claim asserts a 256-entry opcode table and a fatal diagnostic
naming the fetched byte for unpopulated entries.  The source table has
`OPCODE_TABLE_SIZE = 0xFF = 255` slots; fetching byte 0x03 (an unpopulated
slot) aborts with a diagnostic naming 0x02 — the placeholder entry's own code,
not the fetched byte — and fetching byte 0xFF aborts with an
index-out-of-bounds panic before any diagnostic is produced. -/
theorem unknown_opcode_diagnostic_bug :
    OPCODE_TABLE_SIZE = 255
    ∧ run_step cpuC6a = Except.error (EmuError.unknownOpcode 0x02)
    ∧ (0x02 : Nat) ≠ 0x03
    ∧ run_step cpuC6b = Except.error EmuError.indexOutOfBounds := by
  refine ⟨rfl, rfl, by decide, rfl⟩

/-- C9: the claim asserts that opcode 0xBC is LDY with AbsoluteX addressing,
loading Y from `read16(PC) + X`.  The source registers 0xBC with
`AddressingMode::Absolute_Y`: in `cpuC9` (X = 1, Y = 2, operand base 0x0010,
`MEM[0x0011] = 0xBB`, `MEM[0x0012] = 0xAA`) executing 0xBC loads
`MEM[0x0010 + Y] = 0xAA`, not the AbsoluteX byte 0xBB. -/
theorem ldy_BC_uses_absolute_y :
    (opcode_table 0xBC).mode = AddressingMode.Absolute_Y
    ∧ (run_step cpuC9).map (fun p => p.1.register_y) = Except.ok 0xAA
    ∧ (0xAA : Nat) ≠ 0xBB := by
  refine ⟨rfl, rfl, by decide⟩

/-- C7: for every STA/STX/STY whose effective address resolves and whose
execution completes, the byte at the effective address equals the source
register (A, X, Y respectively) and the whole status byte is unchanged. -/
theorem store_writes_register_and_preserves_status :
    (∀ (s : CPU) (op : Opcode) (address : Nat) (s' : CPU),
        get_operand_address s op.mode = Except.ok address →
        sta s op = Except.ok s' →
        s'.memory address = s.accumulator ∧ s'.status = s.status)
    ∧ (∀ (s : CPU) (op : Opcode) (address : Nat) (s' : CPU),
        get_operand_address s op.mode = Except.ok address →
        stx s op = Except.ok s' →
        s'.memory address = s.register_x ∧ s'.status = s.status)
    ∧ (∀ (s : CPU) (op : Opcode) (address : Nat) (s' : CPU),
        get_operand_address s op.mode = Except.ok address →
        sty s op = Except.ok s' →
        s'.memory address = s.register_y ∧ s'.status = s.status) := by
  refine ⟨?_, ?_, ?_⟩ <;>
  · intro s op address s' hga h
    first
    | (simp only [sta, hga] at h)
    | (simp only [stx, hga] at h)
    | (simp only [sty, hga] at h)
    cases hmw : mem_write s address _ with
    | error e => rw [hmw] at h; exact absurd h (by simp)
    | ok s1 =>
      rw [hmw] at h
      obtain ⟨hb, hs1⟩ := mem_write_eq _ _ _ _ hmw
      have hs' := increment_pc_eq _ _ _ h
      subst hs'
      subst hs1
      simp

/-- Closed witness for `store_writes_register_and_preserves_status`, at the
concrete STA ZeroPage instruction `85 05` from state `cpuC7`. -/
theorem store_writes_register_witness :
    get_operand_address cpuC7 (opcode_table 0x85).mode = Except.ok 0x05
    ∧ sta cpuC7 (opcode_table 0x85) = Except.ok cpuC7'
    ∧ (cpuC7'.memory 0x05 = cpuC7.accumulator ∧ cpuC7'.status = cpuC7.status) :=
  ⟨rfl, rfl,
    store_writes_register_and_preserves_status.1 cpuC7 (opcode_table 0x85) 0x05 cpuC7' rfl rfl⟩

/-- C2 counterexample: at A = 0x80, operand v = 0x80, carry clear (state
`cpuC2`, SBC Immediate `E9 80`), the code produces A' = 0x00 with C' and V'
both set, whereas the claim's standard 6502 semantics demand
A' = (0x80 − 0x80 − 1) mod 256 = 0xFF with C' clear (a borrow occurred) and
V' clear (−128 − (−128) − 1 = −1 does not overflow).  This refutes the claim
that A, C, V match standard SBC behavior. -/
theorem sbc_standard_counterexample :
    (sbc cpuC2 (opcode_table 0xE9)).map
      (fun t => (t.accumulator, t.status.testBit 0, t.status.testBit 6))
      = Except.ok (0x00, true, true)
    ∧ ((0x00 : Nat), true, true) ≠ ((0xFF : Nat), false, false) :=
  ⟨rfl, by decide⟩

/-- C2 (amended): SBC does compute `add_to_A` on the two's complement of the
operand and then `set_nz(A)`, but the result is one greater than standard 6502
SBC: for every operand v ≠ 0 the new accumulator is
`(A + (256 − v) + C) mod 256` (i.e. `A − v + C`, not `A − v − (1 − C)`), the
carry is set iff `A + (256 − v) + C` exceeds 0xFF, and V is the adder's
overflow formula applied to `256 − v`; for v = 0 the computation `!v + 1`
overflows u8 and the instruction aborts instead of succeeding. -/
theorem sbc_code_semantics (s : CPU) (op : Opcode) (address v : Nat)
    (hv : v < 256)
    (ha : get_operand_address s op.mode = Except.ok address)
    (hm : mem_read s address = Except.ok v) :
    (v = 0 → sbc s op = Except.error EmuError.arithmeticOverflow)
    ∧ (0 < v → ∀ s', sbc s op = Except.ok s' →
        s'.accumulator = (s.accumulator + (256 - v) + s.status % 2) % 256
        ∧ s'.status.testBit 0
          = decide (0xff < s.accumulator + (256 - v) + s.status % 2)
        ∧ s'.status.testBit 6
          = decide ((((256 - v) ^^^ ((s.accumulator + (256 - v) + s.status % 2) % 256))
              &&& (((s.accumulator + (256 - v) + s.status % 2) % 256) ^^^ s.accumulator))
              &&& 0x80 ≠ 0)) := by
  constructor
  · intro hv0
    subst hv0
    have hcond : ¬ (255 - 0 + 1 < 0x100) := by omega
    simp only [sbc, ha, hm, u8_add, if_neg hcond]
  · intro hv0 s' h
    have hcond : 255 - v + 1 < 0x100 := by omega
    simp only [sbc, ha, hm, u8_add, if_pos hcond] at h
    have h255 : 255 - v + 1 = 256 - v := by omega
    rw [h255] at h
    have hs' := increment_pc_eq _ _ _ h
    subst hs'
    obtain ⟨hacc, hbit0, hbit6⟩ := add_to_accumulator_spec s (256 - v)
    refine ⟨?_, ?_, ?_⟩
    · show (update_zero_and_negative_flags _ _).accumulator = _
      rw [update_nz_accumulator, hacc]
    · show (update_zero_and_negative_flags _ _).status.testBit 0 = _
      rw [update_nz_testBit0, hbit0]
    · show (update_zero_and_negative_flags _ _).status.testBit 6 = _
      rw [update_nz_testBit6, hbit6]

/-- Closed witness for `sbc_code_semantics`, at SBC Immediate from `cpuC2`
(v = 0x80 ≠ 0, A = 0x80, carry clear): discharges every hypothesis at a
concrete input and evaluates the amended conclusions there. -/
theorem sbc_code_semantics_witness :
    (0x80 : Nat) < 256
    ∧ get_operand_address cpuC2 (opcode_table 0xE9).mode = Except.ok 0x10
    ∧ mem_read cpuC2 0x10 = Except.ok 0x80
    ∧ ((0x80 : Nat) = 0 → sbc cpuC2 (opcode_table 0xE9)
        = Except.error EmuError.arithmeticOverflow)
    ∧ (0 < (0x80 : Nat) → ∀ s', sbc cpuC2 (opcode_table 0xE9) = Except.ok s' →
        s'.accumulator = (cpuC2.accumulator + (256 - 0x80) + cpuC2.status % 2) % 256
        ∧ s'.status.testBit 0
          = decide (0xff < cpuC2.accumulator + (256 - 0x80) + cpuC2.status % 2)
        ∧ s'.status.testBit 6
          = decide ((((256 - 0x80)
              ^^^ ((cpuC2.accumulator + (256 - 0x80) + cpuC2.status % 2) % 256))
              &&& (((cpuC2.accumulator + (256 - 0x80) + cpuC2.status % 2) % 256)
                ^^^ cpuC2.accumulator))
              &&& 0x80 ≠ 0)) :=
  ⟨by decide, rfl, rfl,
    (sbc_code_semantics cpuC2 (opcode_table 0xE9) 0x10 0x80 (by decide) rfl rfl).1,
    (sbc_code_semantics cpuC2 (opcode_table 0xE9) 0x10 0x80 (by decide) rfl rfl).2⟩

/-- C4 counterexample: ASL ZeroPage from `cpuC4` (operand byte 1 at address
0x05, A = 0, carry already set).  The code leaves memory unchanged (still 1),
stores the shifted value 2 in the accumulator, and leaves the carry set even
though bit 7 of the operand was 0 — whereas the claim demands memory = 2,
accumulator unchanged (0), and carry cleared. -/
theorem asl_spec_counterexample :
    (asl cpuC4 (opcode_table 0x06)).map
      (fun t => (t.memory 0x05, t.accumulator, t.status.testBit 0))
      = Except.ok (1, 2, true)
    ∧ ((1 : Nat), (2 : Nat), true) ≠ ((2 : Nat), (0 : Nat), false) :=
  ⟨rfl, by decide⟩

/-- C4 (amended): for every ASL in a non-Implied mode the shifted result
`(v << 1) mod 256` is stored in the ACCUMULATOR and memory is left entirely
unchanged; in every mode the carry flag is set when bit 7 of the operand was 1
and left at its previous value (never cleared) when bit 7 was 0. -/
theorem asl_code_semantics :
    (∀ (s : CPU) (op : Opcode) (address v : Nat) (s' : CPU),
        op.mode ≠ AddressingMode.None →
        get_operand_address s op.mode = Except.ok address →
        mem_read s address = Except.ok v →
        asl s op = Except.ok s' →
        s'.memory = s.memory
        ∧ s'.accumulator = (v <<< 1) % 256
        ∧ s'.status.testBit 0 = (decide (0xff < v <<< 1) || s.status.testBit 0))
    ∧ (∀ (s : CPU) (op : Opcode) (s' : CPU),
        op.mode = AddressingMode.None →
        asl s op = Except.ok s' →
        s'.memory = s.memory
        ∧ s'.accumulator = (s.accumulator <<< 1) % 256
        ∧ s'.status.testBit 0
          = (decide (0xff < s.accumulator <<< 1) || s.status.testBit 0)) := by
  constructor
  · intro s op address v s' hmode hga hm h
    simp only [asl, if_neg hmode, hga, hm] at h
    have hs' := increment_pc_eq _ _ _ h
    subst hs'
    refine ⟨?_, ?_, ?_⟩
    · show (update_zero_and_negative_flags _ _).memory = _
      rw [update_nz_memory]
      by_cases hc : 0xff < v <<< 1 <;> simp [hc, status_set]
    · show (update_zero_and_negative_flags _ _).accumulator = _
      rw [update_nz_accumulator]
    · show (update_zero_and_negative_flags _ _).status.testBit 0 = _
      rw [update_nz_testBit0]
      by_cases hc : 0xff < v <<< 1 <;>
        simp [hc, status_set, CARRY, Nat.testBit_or, Nat.testBit_to_div_mod]
  · intro s op s' hmode h
    simp only [asl, if_pos hmode] at h
    have hs' := increment_pc_eq _ _ _ h
    subst hs'
    refine ⟨?_, ?_, ?_⟩
    · show (update_zero_and_negative_flags _ _).memory = _
      rw [update_nz_memory]
      by_cases hc : 0xff < s.accumulator <<< 1 <;> simp [hc, status_set]
    · show (update_zero_and_negative_flags _ _).accumulator = _
      rw [update_nz_accumulator]
    · show (update_zero_and_negative_flags _ _).status.testBit 0 = _
      rw [update_nz_testBit0]
      by_cases hc : 0xff < s.accumulator <<< 1 <;>
        simp [hc, status_set, CARRY, Nat.testBit_or, Nat.testBit_to_div_mod]

/-- Closed witness for `asl_code_semantics`, at ASL ZeroPage from `cpuC4`
(non-Implied conjunct) and ASL Implied (0x0A) from `cpuC4`. -/
theorem asl_code_semantics_witness :
    ((opcode_table 0x06).mode ≠ AddressingMode.None
      ∧ get_operand_address cpuC4 (opcode_table 0x06).mode = Except.ok 0x05
      ∧ mem_read cpuC4 0x05 = Except.ok 1
      ∧ aslZpC4.memory = cpuC4.memory
      ∧ aslZpC4.accumulator = ((1 : Nat) <<< 1) % 256
      ∧ aslZpC4.status.testBit 0
        = (decide ((0xff : Nat) < 1 <<< 1) || cpuC4.status.testBit 0))
    ∧ ((opcode_table 0x0A).mode = AddressingMode.None
      ∧ aslImplC4.memory = cpuC4.memory
      ∧ aslImplC4.accumulator = (cpuC4.accumulator <<< 1) % 256
      ∧ aslImplC4.status.testBit 0
        = (decide (0xff < cpuC4.accumulator <<< 1) || cpuC4.status.testBit 0)) := by
  constructor
  · have h := asl_code_semantics.1 cpuC4 (opcode_table 0x06) 0x05 1 aslZpC4
      (by decide) rfl rfl rfl
    exact ⟨by decide, rfl, rfl, h.1, h.2.1, h.2.2⟩
  · have h := asl_code_semantics.2 cpuC4 (opcode_table 0x0A) aslImplC4 (by decide) rfl
    exact ⟨by decide, h.1, h.2.1, h.2.2⟩

/-- C5 counterexample: ROL ZeroPage from `cpuC5` (operand 0x70 at address
0x05, A = 0, carry clear).  The rotated byte written to memory is 0xE0 ≠ 0,
yet the zero flag is SET, because the code derives Z from the accumulator
(which is 0 and untouched) instead of the result byte; the claim demands
`Z = (result_byte == 0) = false`. -/
theorem rol_zero_flag_counterexample :
    (rol cpuC5 (opcode_table 0x26)).map
      (fun t => (t.memory 0x05, t.accumulator, t.status.testBit 1))
      = Except.ok (0xE0, 0, true)
    ∧ true ≠ decide ((0xE0 : Nat) = 0) :=
  ⟨rfl, by decide⟩

/-- C5 (amended): for ROL and ROR in non-Implied modes the rotated byte `r` is
written to the effective address, the accumulator is unchanged, N equals bit 7
of `r` and C equals the rotated-out bit of the operand as claimed — but Z
equals `(accumulator == 0)` (the unchanged accumulator), not
`(result_byte == 0)`.  (In Implied mode the result byte IS the accumulator,
so the claim's Z condition holds there.) -/
theorem rol_ror_flag_semantics :
    (∀ (s : CPU) (op : Opcode) (address v : Nat) (s' : CPU),
        op.mode ≠ AddressingMode.None →
        get_operand_address s op.mode = Except.ok address →
        mem_read s address = Except.ok v →
        rol s op = Except.ok s' →
        s'.accumulator = s.accumulator
        ∧ s'.memory address = (((v <<< 1) % 256) ||| (s.status &&& CARRY))
        ∧ s'.status.testBit 1 = decide (s.accumulator = 0)
        ∧ s'.status.testBit 7
          = decide ((((v <<< 1) % 256) ||| (s.status &&& CARRY)) &&& 0x80 = 0x80)
        ∧ s'.status.testBit 0 = decide (v &&& 0x80 = 0x80))
    ∧ (∀ (s : CPU) (op : Opcode) (address v : Nat) (s' : CPU),
        op.mode ≠ AddressingMode.None →
        get_operand_address s op.mode = Except.ok address →
        mem_read s address = Except.ok v →
        ror s op = Except.ok s' →
        s'.accumulator = s.accumulator
        ∧ s'.memory address
          = (if s.status &&& CARRY = 1 then (v >>> 1) ||| 0x80 else v >>> 1)
        ∧ s'.status.testBit 1 = decide (s.accumulator = 0)
        ∧ s'.status.testBit 7
          = decide ((if s.status &&& CARRY = 1 then (v >>> 1) ||| 0x80 else v >>> 1)
              &&& 0x80 = 0x80)
        ∧ s'.status.testBit 0 = decide (v &&& 0x01 = 1)) := by
  constructor
  · intro s op address v s' hmode hga hm h
    simp only [rol, if_neg hmode, hga, hm] at h
    cases hmw : mem_write s address (((v <<< 1) % 256) ||| (s.status &&& CARRY)) with
    | error e => rw [hmw] at h; exact absurd h (by simp)
    | ok s1 =>
      rw [hmw] at h
      obtain ⟨hb, hs1⟩ := mem_write_eq _ _ _ _ hmw
      have hs' := increment_pc_eq _ _ _ h
      subst hs'
      subst hs1
      clear h hmw hga hm hmode hb
      refine ⟨?_, ?_, ?_, ?_, ?_⟩ <;>
        simp only [ite_accumulator, ite_memory, ite_status,
          status_set_accumulator, status_reset_accumulator,
          status_set_memory, status_reset_memory,
          status_set_status, status_reset_status, ite_self,
          testBit_ite, Nat.testBit_or, Nat.testBit_and, ZERO, NEGATIV, CARRY] <;>
        split_ifs <;>
        simp_all [Nat.testBit_to_div_mod]
  · intro s op address v s' hmode hga hm h
    simp only [ror, if_neg hmode, hga, hm] at h
    cases hmw : mem_write s address
        (if s.status &&& CARRY = 1 then (v >>> 1) ||| 0x80 else v >>> 1) with
    | error e => rw [hmw] at h; exact absurd h (by simp)
    | ok s1 =>
      rw [hmw] at h
      obtain ⟨hb, hs1⟩ := mem_write_eq _ _ _ _ hmw
      have hs' := increment_pc_eq _ _ _ h
      subst hs'
      subst hs1
      clear h hmw hga hm hmode hb
      refine ⟨?_, ?_, ?_, ?_, ?_⟩ <;>
        simp only [ite_accumulator, ite_memory, ite_status,
          status_set_accumulator, status_reset_accumulator,
          status_set_memory, status_reset_memory,
          status_set_status, status_reset_status, ite_self,
          testBit_ite, Nat.testBit_or, Nat.testBit_and, ZERO, NEGATIV, CARRY] <;>
        split_ifs <;>
        simp_all [Nat.testBit_to_div_mod]

/-- Closed witness for `rol_ror_flag_semantics`, at ROL ZeroPage and ROR
ZeroPage from `cpuC5` (operand 0x70, carry clear, A = 0). -/
theorem rol_ror_flag_semantics_witness :
    ((opcode_table 0x26).mode ≠ AddressingMode.None
      ∧ get_operand_address cpuC5 (opcode_table 0x26).mode = Except.ok 0x05
      ∧ mem_read cpuC5 0x05 = Except.ok 0x70
      ∧ rolZpC5.accumulator = cpuC5.accumulator
      ∧ rolZpC5.memory 0x05
        = ((((0x70 : Nat) <<< 1) % 256) ||| (cpuC5.status &&& CARRY))
      ∧ rolZpC5.status.testBit 1 = decide (cpuC5.accumulator = 0))
    ∧ ((opcode_table 0x66).mode ≠ AddressingMode.None
      ∧ rorZpC5.accumulator = cpuC5.accumulator
      ∧ rorZpC5.memory 0x05
        = (if cpuC5.status &&& CARRY = 1 then ((0x70 : Nat) >>> 1) ||| 0x80
           else (0x70 : Nat) >>> 1)
      ∧ rorZpC5.status.testBit 0 = decide ((0x70 : Nat) &&& 0x01 = 1)) := by
  constructor
  · have h := rol_ror_flag_semantics.1 cpuC5 (opcode_table 0x26) 0x05 0x70 rolZpC5
      (by decide) rfl rfl rfl
    exact ⟨by decide, rfl, rfl, h.1, h.2.1, h.2.2.1⟩
  · have h := rol_ror_flag_semantics.2 cpuC5 (opcode_table 0x66) 0x05 0x70 rorZpC5
      (by decide) rfl rfl rfl
    exact ⟨by decide, h.1, h.2.1, h.2.2.2.2⟩

/-- C8: PHP pushes the raw status byte P₀ into the stack cell at SP₀ and
decrements SP; from any later state `t` whose stack pointer is still SP₀ − 1
and whose cell at SP₀ still holds P₀ (i.e. the intervening instructions did
not touch the stack pointer or that cell, however they changed P), PLP restores
the status register to P₀ bitwise-identically.  The stack pointer range
0x0101..=0x01FD guarantees neither stack-overflow nor stack-underflow panic. -/
theorem php_plp_roundtrip (s t : CPU)
    (hlo : 0x0101 ≤ s.stack_pointer) (hhi : s.stack_pointer ≤ 0x01FD)
    (ht_sp : t.stack_pointer = s.stack_pointer - 1)
    (ht_mem : t.memory s.stack_pointer = s.status) :
    (php s).map (fun u => (u.memory s.stack_pointer, u.stack_pointer))
      = Except.ok (s.status, s.stack_pointer - 1)
    ∧ (plp t).map CPU.status = Except.ok s.status := by
  have hlt : s.stack_pointer < MEM_SIZE := by simp only [MEM_SIZE]; omega
  have h1 : (1 : Nat) ≤ s.stack_pointer := by omega
  have h2 : ¬ (s.stack_pointer - 1 < 0x0100) := by omega
  constructor
  · simp only [php, push, mem_write, u16_sub, Except.map, if_pos hlt]
    simp only [if_pos h1, if_neg h2]
    simp
  · have h3 : t.stack_pointer + 1 = s.stack_pointer := by omega
    have h4 : t.stack_pointer + 1 < 0x10000 := by omega
    have h5 : ¬ (0x01FF < t.stack_pointer + 1) := by omega
    have h6 : t.stack_pointer + 1 < MEM_SIZE := by simp only [MEM_SIZE]; omega
    simp only [plp, pop, u16_add, mem_read, Except.map, if_pos h4, if_neg h5, if_pos h6]
    simp [h3, ht_mem]

/-- Closed witness for `php_plp_roundtrip`: P₀ = 0xB5 pushed from `cpuC8`
(SP = 0x01FD), then restored by PLP from `cpuC8t`, whose status meanwhile
became 0x22. -/
theorem php_plp_roundtrip_witness :
    0x0101 ≤ cpuC8.stack_pointer ∧ cpuC8.stack_pointer ≤ 0x01FD
    ∧ cpuC8t.stack_pointer = cpuC8.stack_pointer - 1
    ∧ cpuC8t.memory cpuC8.stack_pointer = cpuC8.status
    ∧ ((php cpuC8).map (fun u => (u.memory cpuC8.stack_pointer, u.stack_pointer))
        = Except.ok (cpuC8.status, cpuC8.stack_pointer - 1)
      ∧ (plp cpuC8t).map CPU.status = Except.ok cpuC8.status) :=
  ⟨by decide, by decide, by decide, rfl,
    php_plp_roundtrip cpuC8 cpuC8t (by decide) (by decide) (by decide) rfl⟩

/-- C10: `load` aborts (slice out of bounds) exactly when the program is longer
than 0xF9FF bytes; otherwise it succeeds and the resulting memory holds the
reset vector bytes 0x00/0x06 at 0xFFFC/0xFFFD (written after the copy), the
program bytes at 0x0600 onward, and the previous contents everywhere else. -/
theorem load_copies_program :
    (∀ (s : CPU) (program : List Nat), 0xF9FF < program.length →
        load s program = Except.error EmuError.indexOutOfBounds)
    ∧ (∀ (s : CPU) (program : List Nat), program.length ≤ 0xF9FF →
        except_ok (load s program) = true
        ∧ ∀ s', load s program = Except.ok s' → ∀ a : Nat,
            s'.memory a =
              if a = 0xFFFD then 0x06
              else if a = 0xFFFC then 0x00
              else if 0x0600 ≤ a ∧ a < 0x0600 + program.length then
                program.getD (a - 0x0600) 0
              else s.memory a) := by
  constructor
  · intro s program h
    have hb : ¬ (0x0600 + program.length ≤ MEM_SIZE) := by simp only [MEM_SIZE]; omega
    simp only [load, if_neg hb]
  · intro s program h
    have hb : 0x0600 + program.length ≤ MEM_SIZE := by simp only [MEM_SIZE]; omega
    constructor
    · simp only [load, if_pos hb, mem_write_u16, mem_write, u16_add, except_ok]
      norm_num [MEM_SIZE]
    · intro s' hs' a
      simp only [load, if_pos hb] at hs'
      obtain ⟨hmem, -⟩ := mem_write_u16_eq _ _ _ _ hs'
      rw [hmem]
      by_cases hD : a = 0xFFFD
      · simp [hD]
      · by_cases hC : a = 0xFFFC
        · simp [hC, hD]
          decide
        · simp [hC, hD]

/-- Closed witness for `load_copies_program`: the long-program branch at a
program of 0xFA00 zero bytes, and the copying branch at the program `[1, 2, 3]`
loaded into a fresh CPU, checked at a program byte, both vector bytes, and an
untouched address. -/
theorem load_copies_program_witness :
    load CPU.new (List.replicate 0xFA00 0) = Except.error EmuError.indexOutOfBounds
    ∧ except_ok (load CPU.new [1, 2, 3]) = true
    ∧ cpuC10'.memory 0x0600 = 1 ∧ cpuC10'.memory 0x0602 = 3
    ∧ cpuC10'.memory 0xFFFC = 0x00 ∧ cpuC10'.memory 0xFFFD = 0x06
    ∧ cpuC10'.memory 0x0700 = CPU.new.memory 0x0700 := by
  refine ⟨?_, ?_, ?_, ?_, ?_, ?_, ?_⟩
  · exact load_copies_program.1 CPU.new (List.replicate 0xFA00 0)
      (by rw [List.length_replicate]; omega)
  · exact (load_copies_program.2 CPU.new [1, 2, 3] (by decide)).1
  · have := (load_copies_program.2 CPU.new [1, 2, 3] (by decide)).2 cpuC10' rfl 0x0600
    simpa using this
  · have := (load_copies_program.2 CPU.new [1, 2, 3] (by decide)).2 cpuC10' rfl 0x0602
    simpa using this
  · have := (load_copies_program.2 CPU.new [1, 2, 3] (by decide)).2 cpuC10' rfl 0xFFFC
    simpa using this
  · have := (load_copies_program.2 CPU.new [1, 2, 3] (by decide)).2 cpuC10' rfl 0xFFFD
    simpa using this
  · have := (load_copies_program.2 CPU.new [1, 2, 3] (by decide)).2 cpuC10' rfl 0x0700
    simpa using this

end Nes
